import Mathlib

/-!
Verification development for the cockroachdb-mcp-server repository.

The repository contains two sibling MCP server variants:
  - src/server.ts (environment-variable configured, read-only) together with
    the compiled database helper module (db.js, the Pool wrapper exporting
    executeQuery, getAllTables, getTableSchema, getTableDetails, getTableStats);
  - dist/server.js (URL-argument configured, resources only).

The definitions below are a shallow embedding of those sources.  The pg
driver is abstracted as a Gateway: a function from an SQL text and a
parameter list to either a driver error or a list of rows.  A row is an
association list from column names to cell values; cell values are modelled
as strings (the JSON escaping performed by the JS builtin JSON.stringify is
elided, which is faithful for the alphanumeric values the claims touch).
Each handler is embedded as a pure function that returns its response
together with the list of queries it dispatched to the Gateway, so that
"the Gateway receives zero calls" is a provable statement.

JS string builtins (trim, toLowerCase, startsWith, includes) are embedded
at the character-list level with their ECMAScript semantics on the ASCII
range the code exercises.
-/

/- ===================== JS string builtins ===================== -/

/-- Whitespace recognised by the JS trim builtin (ASCII range; the exotic
Unicode space code points are immaterial to every claim). -/
def jsWhitespace (c : Char) : Bool :=
  c = ' ' || c = '\t' || c = '\n' || c = '\r' || c = '\x0b' || c = '\x0c'

/-- Embedding of the JS String.prototype.trim builtin. -/
def jsTrim (s : String) : String :=
  String.mk (((s.data.dropWhile jsWhitespace).reverse.dropWhile jsWhitespace).reverse)

/-- ASCII lowercasing of one character, as the JS toLowerCase builtin acts
on the ASCII range. -/
def jsCharLower (c : Char) : Char :=
  if 'A' ≤ c && c ≤ 'Z' then Char.ofNat (c.toNat + 32) else c

/-- Embedding of the JS String.prototype.toLowerCase builtin (ASCII range). -/
def jsToLower (s : String) : String :=
  String.mk (s.data.map jsCharLower)

/-- Embedding of the JS String.prototype.startsWith builtin. -/
def jsStartsWith (s pat : String) : Bool :=
  pat.data.isPrefixOf s.data

/-- Helper for substring containment: does pat occur in the list? -/
def containsSubAux (pat : List Char) : List Char → Bool
  | [] => pat.isEmpty
  | c :: t => pat.isPrefixOf (c :: t) || containsSubAux pat t

/-- Embedding of the JS String.prototype.includes builtin (case sensitive
substring containment). -/
def containsSub (s pat : String) : Bool :=
  containsSubAux pat.data s.data

/- ===================== data model ===================== -/

/-- One result row: column name to cell value. -/
abbrev Row := List (String × String)

/-- A query result, as the rows array the db helper returns. -/
abbrev Rows := List Row

/-- The pg driver boundary: SQL text and bind parameters to either a driver
error message or rows.  client.query of the pg Pool. -/
abbrev Gateway := String → List String → Except String Rows

/-- One MCP tool response, flattened to its single text content segment and
the isError flag. -/
structure ToolResult where
  text : String
  isError : Bool
  deriving DecidableEq, Repr

/-- One MCP resource content item. -/
structure ResourceContent where
  uri : String
  text : String
  mimeType : String
  deriving DecidableEq, Repr

/-- One MCP prompt message. -/
structure PromptMessage where
  role : String
  text : String
  deriving DecidableEq, Repr

/- ===================== JSON.stringify model ===================== -/

/-- Rendering of one row as a two-space indented JSON object nested inside
the top level array (JSON.stringify(rows, null, 2) convention). -/
def renderRowAt (r : Row) : String :=
  if r.isEmpty then "  \x7b\x7d"
  else
    "  \x7b\n"
      ++ String.intercalate ",\n"
          (r.map fun kv => "    \x22" ++ kv.1 ++ "\x22: \x22" ++ kv.2 ++ "\x22")
      ++ "\n  \x7d"

/-- Model of JSON.stringify(rows, null, 2) for an array of flat rows with
string cell values. -/
def renderRows (rows : Rows) : String :=
  if rows.isEmpty then "[]"
  else "[\n" ++ String.intercalate ",\n" (rows.map renderRowAt) ++ "\n]"

/-- Model of JSON.stringify(record, null, 2) for one flat record. -/
def renderRecord (r : Row) : String :=
  if r.isEmpty then "\x7b\x7d"
  else
    "\x7b\n"
      ++ String.intercalate ",\n"
          (r.map fun kv => "  \x22" ++ kv.1 ++ "\x22: \x22" ++ kv.2 ++ "\x22")
      ++ "\n\x7d"

/-- Model of JSON.stringify(list, null, 2) for an array of strings. -/
def renderStringList (l : List String) : String :=
  if l.isEmpty then "[]"
  else "[\n" ++ String.intercalate ",\n" (l.map fun s => "  \x22" ++ s ++ "\x22") ++ "\n]"

/-- Rendering of one row as a JSON object whose lines start at the given
indentation, as JSON.stringify indents objects nested inside arrays by two
further spaces per level. -/
def renderRowIndented (ind : String) (r : Row) : String :=
  if r.isEmpty then ind ++ "\x7b\x7d"
  else
    ind ++ "\x7b\n"
      ++ String.intercalate ",\n"
          (r.map fun kv => ind ++ "  \x22" ++ kv.1 ++ "\x22: \x22" ++ kv.2 ++ "\x22")
      ++ "\n" ++ ind ++ "\x7d"

/-- Model of JSON.stringify for an array of flat rows whose opening bracket
sits at the given indentation inside an enclosing object. -/
def renderRowsIndented (ind : String) (rows : Rows) : String :=
  if rows.isEmpty then "[]"
  else
    "[\n" ++ String.intercalate ",\n" (rows.map (renderRowIndented (ind ++ "  ")))
      ++ "\n" ++ ind ++ "]"

/-- Model of JSON.stringify for an array of strings whose opening bracket
sits at the given indentation inside an enclosing object. -/
def renderStringListIndented (ind : String) (l : List String) : String :=
  if l.isEmpty then "[]"
  else
    "[\n" ++ String.intercalate ",\n" (l.map fun s => ind ++ "  \x22" ++ s ++ "\x22")
      ++ "\n" ++ ind ++ "]"

/-- JS object update semantics for the spread-then-assign merge: replace the
value of an existing key in place, else append the key at the end. -/
def setKey (r : Row) (k v : String) : Row :=
  match r with
  | [] => [(k, v)]
  | (k1, v1) :: rest => if k1 = k then (k, v) :: rest else (k1, v1) :: setKey rest k v

/- ===================== sanitizer and classifier ===================== -/

/-- One character of the identifier allow-list character class. -/
def isWordChar (c : Char) : Bool :=
  ('a' ≤ c && c ≤ 'z') || ('A' ≤ c && c ≤ 'Z') || ('0' ≤ c && c ≤ '9') || c = '_'

/-- The identifier sanitizer: the JS test of the anchored regular expression
of one or more word characters, as run by the get-sample-data, count-rows
and column-stats handlers on table, column and order-by names. -/
def sanitizeId (s : String) : Bool :=
  !s.data.isEmpty && s.data.all isWordChar

/-- Classification outcome of the query classifier. -/
inductive QueryClass where
  | ReadOnly
  | WriteOrOther
  deriving DecidableEq, Repr

/-- The query classifier of the execute-query tool: trim, lowercase, and
test for the literal leading token select. -/
def classify (s : String) : QueryClass :=
  if jsStartsWith (jsToLower (jsTrim s)) "select" then .ReadOnly else .WriteOrOther

/- ===================== execute-query tool ===================== -/

/-- The execute-query tool handler (src/server.ts): reject anything that is
not SELECT-prefixed before touching the Gateway, otherwise dispatch the raw
query and stringify the rows; driver failures become error envelopes.
Second component: the queries dispatched to the Gateway. -/
def executeQueryTool (gw : Gateway) (query : String) : ToolResult × List String :=
  let trimmedQuery := jsToLower (jsTrim query)
  if !jsStartsWith trimmedQuery "select" then
    ({ text := "Error: Only SELECT queries are allowed for security reasons.",
       isError := true }, [])
  else
    match gw query [] with
    | .ok results => ({ text := renderRows results, isError := false }, [query])
    | .error e => ({ text := "Error executing query: " ++ e, isError := true }, [query])

/- ===================== get-sample-data tool ===================== -/

/-- Query construction of the get-sample-data handler for a table name that
already passed the sanitizer: base SELECT, optional ORDER BY when the
order-by argument is present and non-empty, then the LIMIT suffix.  The JS
number limit is modelled as a natural number, which is how the handler uses
it (a row cap rendered in decimal). -/
def sampleDataQuery (tableName : String) (orderBy : Option String) (limit : Nat) : String :=
  "SELECT * FROM \x22" ++ tableName ++ "\x22"
    ++ (match orderBy with
        | some c => if c = "" then "" else " ORDER BY \x22" ++ c ++ "\x22"
        | none => "")
    ++ " LIMIT " ++ toString limit

/-- Body of the get-sample-data handler before the catch block: sanitize the
table name, sanitize the order-by column when it is truthy (the JS test
if orderBy treats a missing or empty string as absent), build the query and
dispatch it.  Second component: the queries dispatched to the Gateway. -/
def getSampleDataCore (gw : Gateway) (tableName : String) (limit : Nat)
    (orderBy : Option String) : Except String Rows × List String :=
  if !sanitizeId tableName then (.error "Invalid table name", [])
  else
    match orderBy with
    | some orderCol =>
      if orderCol = "" then
        let q := sampleDataQuery tableName (some "") limit
        (gw q [], [q])
      else if !sanitizeId orderCol then (.error "Invalid order by column", [])
      else
        let q := sampleDataQuery tableName (some orderCol) limit
        (gw q [], [q])
    | none =>
      let q := sampleDataQuery tableName none limit
      (gw q [], [q])

/-- The get-sample-data tool handler: the zod default of 10 is applied to an
omitted limit, the body runs, and any thrown error is converted to the
error envelope by the catch block. -/
def getSampleDataTool (gw : Gateway) (tableName : String) (limit : Option Nat)
    (orderBy : Option String) : ToolResult × List String :=
  match getSampleDataCore gw tableName (limit.getD 10) orderBy with
  | (.ok results, calls) => ({ text := renderRows results, isError := false }, calls)
  | (.error e, calls) =>
    ({ text := "Error fetching sample data: " ++ e, isError := true }, calls)

/- ===================== count-rows tool ===================== -/

/-- Query construction of the count-rows handler: COUNT star with the table
name spliced in, and the raw WHERE fragment appended when truthy. -/
def countRowsQueryOf (tableName : String) (whereClause : Option String) : String :=
  "SELECT COUNT(*) as count FROM \x22" ++ tableName ++ "\x22"
    ++ (match whereClause with
        | some w => if w = "" then "" else " WHERE " ++ w
        | none => "")

/-- The count-rows tool handler: sanitize the table name, dispatch the count
query, and format the banner from the count field of the first row; every
thrown error is converted to the error envelope by the catch block. -/
def countRowsTool (gw : Gateway) (tableName : String) (whereClause : Option String) :
    ToolResult × List String :=
  if !sanitizeId tableName then
    ({ text := "Error counting rows: Invalid table name", isError := true }, [])
  else
    let q := countRowsQueryOf tableName whereClause
    match gw q [] with
    | .error e => ({ text := "Error counting rows: " ++ e, isError := true }, [q])
    | .ok rows =>
      match rows.head? with
      | none =>
        ({ text := "Error counting rows: cannot read properties of undefined",
           isError := true }, [q])
      | some r =>
        let whereActive : Bool := match whereClause with | some w => w != "" | none => false
        ({ text := "Table " ++ tableName ++ " has " ++ ((r.lookup "count").getD "undefined")
             ++ " rows" ++ (if whereActive then " matching the condition" else "") ++ ".",
           isError := false }, [q])

/- ===================== column-stats tool ===================== -/

/-- Branch of the statistics synthesizer. -/
inductive StatsBranch where
  | numeric
  | temporal
  | fallback
  deriving DecidableEq, Repr

/-- Numeric-family test of the column-stats handler: case sensitive
containment, as the JS includes builtin behaves. -/
def numericCond (dataType : String) : Bool :=
  containsSub dataType "int" || containsSub dataType "float"
    || containsSub dataType "decimal" || containsSub dataType "numeric"

/-- Temporal-family test of the column-stats handler. -/
def temporalCond (dataType : String) : Bool :=
  containsSub dataType "date" || containsSub dataType "time"

/-- Branch selection of the column-stats handler: numeric first, then
temporal, else the fallback for strings and other types. -/
def selectBranch (dataType : String) : StatsBranch :=
  if numericCond dataType then .numeric
  else if temporalCond dataType then .temporal
  else .fallback

/-- The data_type probe query of the column-stats handler, with the exact
template-literal whitespace of the source. -/
def schemaQueryText : String :=
  "\n          SELECT data_type \n          FROM information_schema.columns \n          WHERE table_schema = \x27public\x27 AND table_name = $1 AND column_name = $2\n        "

/-- The per-branch statistics query of the column-stats handler, with the
exact template-literal whitespace of the source. -/
def statsQueryText (b : StatsBranch) (tableName columnName : String) : String :=
  match b with
  | .numeric =>
    "\n            SELECT \n              COUNT(\x22" ++ columnName
      ++ "\x22) as count,\n              AVG(\x22" ++ columnName
      ++ "\x22) as mean,\n              MIN(\x22" ++ columnName
      ++ "\x22) as min,\n              MAX(\x22" ++ columnName
      ++ "\x22) as max,\n              PERCENTILE_CONT(0.5) WITHIN GROUP (ORDER BY \x22"
      ++ columnName ++ "\x22) as median\n            FROM \x22" ++ tableName
      ++ "\x22\n            WHERE \x22" ++ columnName ++ "\x22 IS NOT NULL\n          "
  | .temporal =>
    "\n            SELECT \n              COUNT(\x22" ++ columnName
      ++ "\x22) as count,\n              MIN(\x22" ++ columnName
      ++ "\x22) as min,\n              MAX(\x22" ++ columnName
      ++ "\x22) as max\n            FROM \x22" ++ tableName
      ++ "\x22\n            WHERE \x22" ++ columnName ++ "\x22 IS NOT NULL\n          "
  | .fallback =>
    "\n            SELECT \n              COUNT(\x22" ++ columnName
      ++ "\x22) as count,\n              COUNT(DISTINCT \x22" ++ columnName
      ++ "\x22) as distinct_count,\n              MAX(LENGTH(\x22" ++ columnName
      ++ "\x22)) as max_length\n            FROM \x22" ++ tableName
      ++ "\x22\n            WHERE \x22" ++ columnName ++ "\x22 IS NOT NULL\n          "

/-- The always-run null-count query of the column-stats handler, with the
exact template-literal whitespace of the source. -/
def nullQueryText (tableName columnName : String) : String :=
  "\n          SELECT COUNT(*) as null_count\n          FROM \x22" ++ tableName
    ++ "\x22\n          WHERE \x22" ++ columnName ++ "\x22 IS NULL\n        "

/-- Body of the column-stats handler before the catch block: sanitize both
identifiers, probe the declared type, select a branch, run the branch query
and the always-run null-count query, and merge the record via the object
spread followed by the null_count and data_type assignments.  Second
component: the queries dispatched to the Gateway with their bind
parameters. -/
def columnStatsCore (gw : Gateway) (tableName columnName : String) :
    Except String Row × List (String × List String) :=
  if !(sanitizeId tableName && sanitizeId columnName) then
    (.error "Invalid table or column name", [])
  else
    match gw schemaQueryText [tableName, columnName] with
    | .error e => (.error e, [(schemaQueryText, [tableName, columnName])])
    | .ok schemaResult =>
      let calls0 := [(schemaQueryText, [tableName, columnName])]
      match schemaResult.head? with
      | none =>
        (.error ("Column " ++ columnName ++ " not found in table " ++ tableName), calls0)
      | some row0 =>
        let dataType := (row0.lookup "data_type").getD ""
        let sq := statsQueryText (selectBranch dataType) tableName columnName
        match gw sq [] with
        | .error e => (.error e, calls0 ++ [(sq, [])])
        | .ok statsResult =>
          let nq := nullQueryText tableName columnName
          match gw nq [] with
          | .error e => (.error e, calls0 ++ [(sq, []), (nq, [])])
          | .ok nullResult =>
            match nullResult.head? with
            | none =>
              (.error "cannot read properties of undefined",
               calls0 ++ [(sq, []), (nq, [])])
            | some nrow =>
              let statsRow := statsResult.head?.getD []
              let nc := (nrow.lookup "null_count").getD "undefined"
              let stats := setKey (setKey statsRow "null_count" nc) "data_type" dataType
              (.ok stats, calls0 ++ [(sq, []), (nq, [])])

/-- The column-stats tool handler: run the body and convert any thrown error
to the error envelope in the catch block. -/
def columnStatsTool (gw : Gateway) (tableName columnName : String) :
    ToolResult × List (String × List String) :=
  match columnStatsCore gw tableName columnName with
  | (.ok stats, calls) => ({ text := renderRecord stats, isError := false }, calls)
  | (.error e, calls) =>
    ({ text := "Error getting column statistics: " ++ e, isError := true }, calls)

/- ===================== db.js helpers and resources ===================== -/

/-- The row-count query the db helper getTableStats builds by splicing the
raw table name into the SQL text, with no sanitizer on this path. -/
def tableStatsCountQuery (tableName : String) : String :=
  "SELECT COUNT(*) as total_rows FROM \x22" ++ tableName ++ "\x22"

/-- The table-size query of the db helper getTableStats (parameterized). -/
def tableStatsSizeQuery : String :=
  "SELECT pg_size_pretty(pg_total_relation_size($1)) as table_size"

/-- The db helper getTableStats: count rows via string splicing, read the
approximate size via a bind parameter, and return the pair record.  Second
component: the queries dispatched to the Gateway with their bind
parameters. -/
def getTableStats (gw : Gateway) (tableName : String) :
    Except String Row × List (String × List String) :=
  let countQuery := tableStatsCountQuery tableName
  match gw countQuery [] with
  | .error e => (.error e, [(countQuery, [])])
  | .ok countResult =>
    match gw tableStatsSizeQuery ["public." ++ tableName] with
    | .error e =>
      (.error e, [(countQuery, []), (tableStatsSizeQuery, ["public." ++ tableName])])
    | .ok sizeResult =>
      let rowCount := (countResult.head?.bind fun r => r.lookup "total_rows").getD "undefined"
      let tableSize := (sizeResult.head?.bind fun r => r.lookup "table_size").getD "undefined"
      (.ok [("rowCount", rowCount), ("tableSize", tableSize)],
       [(countQuery, []), (tableStatsSizeQuery, ["public." ++ tableName])])

/-- The sample-data query the explore-table prompt handler builds by
splicing the raw table name into the SQL text, with no sanitizer on this
path. -/
def exploreTableSampleQuery (tableName : String) : String :=
  "SELECT * FROM \x22" ++ tableName ++ "\x22 LIMIT 5"

/-- The table-list query of the db helper getAllTables, with the exact
template-literal whitespace of the source. -/
def getAllTablesQuery : String :=
  "\n    SELECT table_name \n    FROM information_schema.tables \n    WHERE table_schema = \x27public\x27\n  "

/-- The db helper getAllTables: run the catalog query and project the
table_name column. -/
def getAllTables (gw : Gateway) : Except String (List String) :=
  match gw getAllTablesQuery [] with
  | .error e => .error e
  | .ok rows => .ok (rows.map fun r => (r.lookup "table_name").getD "undefined")

/-- The tables-list resource handler of the environment-variable variant:
catch any error and convert it to a plain-text error content item. -/
def tablesListHandler (gw : Gateway) (uri : String) : ResourceContent :=
  match getAllTables gw with
  | .ok tables =>
    { uri := uri, text := renderStringList tables, mimeType := "application/json" }
  | .error e =>
    { uri := uri, text := "Error fetching tables: " ++ e, mimeType := "text/plain" }

/-- The column query of the db helper getTableSchema, with the exact
template-literal whitespace of the source. -/
def getTableSchemaQuery : String :=
  "\n    SELECT column_name, data_type, is_nullable, column_default \n    FROM information_schema.columns \n    WHERE table_schema = \x27public\x27 AND table_name = $1\n    ORDER BY ordinal_position\n  "

/-- The db helper getTableSchema: run the parameterized catalog query and
return its rows. -/
def getTableSchemaDb (gw : Gateway) (tableName : String) : Except String Rows :=
  gw getTableSchemaQuery [tableName]

/-- The table-schema resource handler of the environment-variable variant:
catch any error and convert it to a plain-text error content item. -/
def tableSchemaHandler (gw : Gateway) (uri tableName : String) : ResourceContent :=
  match getTableSchemaDb gw tableName with
  | .ok schema =>
    { uri := uri, text := renderRows schema, mimeType := "application/json" }
  | .error e =>
    { uri := uri, text := "Error fetching schema for " ++ tableName ++ ": " ++ e,
      mimeType := "text/plain" }

/-- The index query of the db helper getTableDetails, with the exact
template-literal whitespace of the source. -/
def indexQueryText : String :=
  "\n    SELECT indexname, indexdef\n    FROM pg_indexes\n    WHERE schemaname = \x27public\x27 AND tablename = $1\n  "

/-- The primary-key query of the db helper getTableDetails, with the exact
template-literal whitespace of the source. -/
def pkQueryText : String :=
  "\n    SELECT a.attname\n    FROM pg_index i\n    JOIN pg_attribute a ON a.attrelid = i.indrelid AND a.attnum = ANY(i.indkey)\n    WHERE i.indrelid = $1::regclass AND i.indisprimary\n  "

/-- The db helper getTableDetails: columns via getTableSchema, then the
index rows, then the primary-key column names projected from attname. -/
def getTableDetailsDb (gw : Gateway) (tableName : String) :
    Except String (Rows × Rows × List String) :=
  match getTableSchemaDb gw tableName with
  | .error e => .error e
  | .ok columns =>
    match gw indexQueryText [tableName] with
    | .error e => .error e
    | .ok indexes =>
      match gw pkQueryText ["public." ++ tableName] with
      | .error e => .error e
      | .ok primaryKeys =>
        .ok (columns, indexes,
          primaryKeys.map fun r => (r.lookup "attname").getD "undefined")

/-- Model of JSON.stringify(details, null, 2) for the getTableDetails
record of columns, indexes and primaryKeys. -/
def renderTableDetails (columns indexes : Rows) (primaryKeys : List String) : String :=
  "\x7b\n  \x22columns\x22: " ++ renderRowsIndented "  " columns
    ++ ",\n  \x22indexes\x22: " ++ renderRowsIndented "  " indexes
    ++ ",\n  \x22primaryKeys\x22: " ++ renderStringListIndented "  " primaryKeys
    ++ "\n\x7d"

/-- The table-details resource handler of the environment-variable variant:
catch any error and convert it to a plain-text error content item. -/
def tableDetailsHandler (gw : Gateway) (uri tableName : String) : ResourceContent :=
  match getTableDetailsDb gw tableName with
  | .ok (columns, indexes, pks) =>
    { uri := uri, text := renderTableDetails columns indexes pks,
      mimeType := "application/json" }
  | .error e =>
    { uri := uri, text := "Error fetching details for " ++ tableName ++ ": " ++ e,
      mimeType := "text/plain" }

/-- The table-stats resource handler of the environment-variable variant:
catch any error from the db helper getTableStats and convert it to a
plain-text error content item. -/
def tableStatsHandler (gw : Gateway) (uri tableName : String) : ResourceContent :=
  match (getTableStats gw tableName).fst with
  | .ok stats =>
    { uri := uri, text := renderRecord stats, mimeType := "application/json" }
  | .error e =>
    { uri := uri, text := "Error fetching stats for " ++ tableName ++ ": " ++ e,
      mimeType := "text/plain" }

/- ===================== dist/server.js resource handlers ===================== -/

/-- The database-details query of the databases resource handler of the
URL-argument variant, with the exact template-literal whitespace. -/
def databasesDetailQuery : String :=
  "SELECT \n          owner,\n          version \n         FROM crdb_internal.databases \n         WHERE name = $1"

/-- Rendering of the dbInfo record; fields read through optional chaining
are omitted when absent, as JSON.stringify drops undefined properties. -/
def renderDbInfo (name : String) (owner version : Option String) : String :=
  renderRecord (("name", name)
    :: ((match owner with | some o => [("owner", o)] | none => [])
        ++ (match version with | some v => [("version", v)] | none => [])))

/-- The databases resource handler of the URL-argument variant: the body
runs inside try with only a finally clause releasing the client — there is
no catch, so a driver failure propagates out of the handler. -/
def databasesHandler (gw : Gateway) (uri database : String) :
    Except String ResourceContent :=
  match gw databasesDetailQuery [database] with
  | .error e => .error e
  | .ok rows =>
    let owner := rows.head?.bind fun r => r.lookup "owner"
    let version := rows.head?.bind fun r => r.lookup "version"
    .ok { uri := uri, text := renderDbInfo database owner version,
          mimeType := "application/json" }

/-- The column-details query of the schema resource handler of the
URL-argument variant, with the exact template-literal whitespace. -/
def schemaColumnsQuery : String :=
  "SELECT \n          column_name,\n          column_type,\n          nullable,\n          default_expr,\n          hidden\n         FROM crdb_internal.table_columns\n         WHERE descriptor_name = $1\n         ORDER BY column_id"

/-- Per-column remapping done by the schema resource handler; a falsy
default_expr is dropped (the JS expression default_expr or undefined). -/
def remapColumn (r : Row) : Row :=
  [("name", (r.lookup "column_name").getD "undefined"),
   ("type", (r.lookup "column_type").getD "undefined"),
   ("nullable", (r.lookup "nullable").getD "undefined")]
    ++ (match r.lookup "default_expr" with
        | some d => if d = "" then [] else [("default", d)]
        | none => [])
    ++ [("hidden", (r.lookup "hidden").getD "undefined")]

/-- Model of JSON.stringify(schema, null, 2) for the schema record of the
schema resource handler: the table key, then the columns array nested one
level deep with its rows two levels deep. -/
def renderTableSchema (table : String) (rows : Rows) : String :=
  "\x7b\n  \x22table\x22: \x22" ++ table ++ "\x22,\n  \x22columns\x22: "
    ++ renderRowsIndented "  " (rows.map remapColumn) ++ "\n\x7d"

/-- The schema resource handler of the URL-argument variant: again try with
only a finally clause — no catch, so a driver failure propagates out of the
handler. -/
def schemaHandler (gw : Gateway) (uri table : String) :
    Except String ResourceContent :=
  match gw schemaColumnsQuery [table] with
  | .error e => .error e
  | .ok rows =>
    .ok { uri := uri, text := renderTableSchema table rows,
          mimeType := "application/json" }

/- ===================== analyze-query-results prompt ===================== -/

/-- The analyze-query-results prompt handler: the same trim-lowercase-select
gate as the execute-query tool; a rejected query yields one user-role
message asking to make the query read-only and no Gateway call; an accepted
query is dispatched and its rows (or the driver error) are interpolated
into one user-role message.  Second component: the queries dispatched. -/
def analyzeQueryResults (gw : Gateway) (query analysisGoal : String) :
    List PromptMessage × List String :=
  let trimmedQuery := jsToLower (jsTrim query)
  if !jsStartsWith trimmedQuery "select" then
    ([{ role := "user",
        text := "I want to analyze the results of this query: `" ++ query ++ "` to "
          ++ analysisGoal
          ++ ". However, for security reasons, this prompt can only run SELECT queries. Can you help me modify this query to be read-only while still achieving my analysis goals?" }],
     [])
  else
    match gw query [] with
    | .ok results =>
      ([{ role := "user",
          text := "I ran this SQL query against my CockroachDB database:\n\n```sql\n"
            ++ query ++ "\n```\n\nAnd got these results:\n\n```json\n"
            ++ renderRows results ++ "\n```\n\nI want to " ++ analysisGoal
            ++ ". Can you analyze these results and provide insights? Please include observations about patterns, anomalies, and potential business implications of this data." }],
       [query])
    | .error e =>
      ([{ role := "user",
          text := "I tried to run this query: `" ++ query ++ "` to " ++ analysisGoal
            ++ ", but I got this error: " ++ e
            ++ ". Can you help me fix this query? I\x27m using CockroachDB, which is PostgreSQL-compatible." }],
       [query])

/- ===================== model databases ===================== -/

/-- Model engine response row for each branch statistics query, keyed by
the aliases of the select list of that query, which is how the engine names
result columns. -/
def mockStatsRow : StatsBranch → Row
  | .numeric => [("count", "3"), ("mean", "2"), ("min", "1"), ("max", "3"), ("median", "2")]
  | .temporal => [("count", "3"), ("min", "a"), ("max", "b")]
  | .fallback => [("count", "3"), ("distinct_count", "2"), ("max_length", "5")]

/-- Model of the backing SQL engine for the column-stats flow: for each
query the handler can build over the given table, column and declared type,
answer with one row keyed by the select-list aliases of that query.
External collaborator model; the repository does not implement the
engine. -/
def mockDb (dt tableName columnName : String) : Gateway := fun q _ =>
  if q = schemaQueryText then .ok [[("data_type", dt)]]
  else if q = statsQueryText .numeric tableName columnName then
    .ok [mockStatsRow .numeric]
  else if q = statsQueryText .temporal tableName columnName then
    .ok [mockStatsRow .temporal]
  else if q = statsQueryText .fallback tableName columnName then
    .ok [mockStatsRow .fallback]
  else if q = nullQueryText tableName columnName then
    .ok [[("null_count", "1")]]
  else .error "unexpected query"

/-- Model of the backing SQL engine for the sample-data flow over one table
holding the given rows: a LIMIT n query returns the first n rows.  External
collaborator model; the repository does not implement the engine. -/
def sampleDb (rows : Rows) (tableName : String) (orderBy : Option String) (n : Nat) :
    Gateway := fun q _ =>
  if q = sampleDataQuery tableName orderBy n then .ok (rows.take n)
  else .error "unexpected query"

/- ===================== helper lemmas ===================== -/

theorem sanitizeId_ne_empty {s : String} (h : sanitizeId s = true) : s ≠ "" := by
  intro he
  subst he
  exact absurd h (by decide)

theorem setKey_lookup_self (r : Row) (k v : String) : (setKey r k v).lookup k = some v := by
  induction r with
  | nil => simp [setKey, List.lookup]
  | cons kv rest ih =>
    obtain ⟨k1, v1⟩ := kv
    by_cases h : k1 = k
    · simp [setKey, h, List.lookup]
    · have hbe : (k == k1) = false := by simp [Ne.symm h]
      simp [setKey, if_neg h, List.lookup, hbe, ih]

theorem setKey_lookup_of_ne (r : Row) {k k2 : String} (v : String) (h : k ≠ k2) :
    (setKey r k2 v).lookup k = r.lookup k := by
  induction r with
  | nil =>
    have hbe : (k == k2) = false := by simp [h]
    simp [setKey, List.lookup, hbe]
  | cons kv rest ih =>
    obtain ⟨k1, v1⟩ := kv
    by_cases h1 : k1 = k2
    · subst h1
      have hbe : (k == k1) = false := by simp [h]
      simp [setKey, List.lookup, hbe]
    · simp only [setKey, if_neg h1, List.lookup]
      cases hbe : (k == k1) <;> simp [hbe, ih]

theorem selectBranch_numeric_iff (dt : String) :
    selectBranch dt = StatsBranch.numeric ↔ numericCond dt = true := by
  unfold selectBranch
  by_cases h : numericCond dt = true
  · simp [h]
  · simp only [Bool.not_eq_true] at h
    by_cases h2 : temporalCond dt = true <;> simp [h, h2]

theorem selectBranch_temporal_iff (dt : String) :
    selectBranch dt = StatsBranch.temporal ↔
      (numericCond dt = false ∧ temporalCond dt = true) := by
  unfold selectBranch
  by_cases h : numericCond dt = true
  · simp [h]
  · simp only [Bool.not_eq_true] at h
    by_cases h2 : temporalCond dt = true <;> simp [h, h2]

theorem selectBranch_fallback_iff (dt : String) :
    selectBranch dt = StatsBranch.fallback ↔
      (numericCond dt = false ∧ temporalCond dt = false) := by
  unfold selectBranch
  by_cases h : numericCond dt = true
  · simp [h]
  · simp only [Bool.not_eq_true] at h
    by_cases h2 : temporalCond dt = true <;> simp [h, h2]

/- ===================== claim theorems ===================== -/

/-- Claim C2: the execute-query tool classifies a query as read-only, and
proceeds to dispatch it to the Gateway, exactly when the query, after
trimming whitespace and lowercasing, starts with the literal token select;
every other query is classified WriteOrOther and rejected without any
Gateway call. -/
theorem c2_classifier_select_gate :
    (∀ s : String,
        classify s = QueryClass.ReadOnly ↔
          jsStartsWith (jsToLower (jsTrim s)) "select" = true)
  ∧ (∀ (gw : Gateway) (s : String),
      (jsStartsWith (jsToLower (jsTrim s)) "select" = true →
        (executeQueryTool gw s).snd = [s])
      ∧ (jsStartsWith (jsToLower (jsTrim s)) "select" = false →
          classify s = QueryClass.WriteOrOther
          ∧ executeQueryTool gw s =
              ({ text := "Error: Only SELECT queries are allowed for security reasons.",
                 isError := true }, []))) := by
  constructor
  · intro s
    unfold classify
    by_cases h : jsStartsWith (jsToLower (jsTrim s)) "select" = true <;> simp_all
  · intro gw s
    constructor
    · intro h
      unfold executeQueryTool
      simp only [h]
      cases gw s [] <;> simp
    · intro h
      constructor
      · unfold classify
        simp [h]
      · unfold executeQueryTool
        simp [h]

/-- Witness for C2 at the concrete query "  SELECT 1". -/
theorem c2_witness :
    (executeQueryTool (fun _ _ => Except.ok ([] : Rows)) "  SELECT 1").snd
      = ["  SELECT 1"] :=
  (c2_classifier_select_gate.2 (fun _ _ => Except.ok ([] : Rows)) "  SELECT 1").1
    (by decide)

/-- Claim C4: a query that is not SELECT-prefixed makes the execute-query
tool return the error envelope with the literal rejection text, and the
Gateway receives zero calls. -/
theorem c4_reject_before_gateway :
    ∀ (gw : Gateway) (q : String),
      jsStartsWith (jsToLower (jsTrim q)) "select" = false →
      executeQueryTool gw q =
        ({ text := "Error: Only SELECT queries are allowed for security reasons.",
           isError := true }, []) := by
  intro gw q h
  unfold executeQueryTool
  simp [h]

/-- Witness for C4 at the concrete query "DROP TABLE orders". -/
theorem c4_witness :
    executeQueryTool (fun _ _ => Except.ok ([] : Rows)) "DROP TABLE orders" =
      ({ text := "Error: Only SELECT queries are allowed for security reasons.",
         isError := true }, []) :=
  c4_reject_before_gateway (fun _ _ => Except.ok ([] : Rows)) "DROP TABLE orders"
    (by decide)

/-- Counterexample to claim C9: a successful execute-query response carries
no elapsed-time banner at all — for an empty result the entire success text
is the two characters of the empty JSON array, which contains not a single
digit, so no whole-milliseconds figure is present.  Neither the handler nor
the db helper executeQuery measures time. -/
theorem c9_no_elapsed_time :
    (executeQueryTool (fun _ _ => Except.ok ([] : Rows)) "select 1").fst
      = { text := "[]", isError := false }
    ∧ (("[]" : String).data.all fun c => !c.isDigit) = true := by
  constructor
  · rfl
  · decide

/-- Claim C9 as amended: the success response of the execute-query tool is a
single text segment holding exactly the JSON rendering of the rows the
Gateway returned; no elapsed time is measured or included anywhere in the
response. -/
theorem c9_success_text_is_rows_json :
    ∀ (gw : Gateway) (q : String) (rows : Rows),
      jsStartsWith (jsToLower (jsTrim q)) "select" = true →
      gw q [] = Except.ok rows →
      executeQueryTool gw q = ({ text := renderRows rows, isError := false }, [q]) := by
  intro gw q rows h hg
  unfold executeQueryTool
  simp [h, hg]

/-- Witness for the amended C9 at a concrete query and one-row result. -/
theorem c9_witness :
    executeQueryTool (fun _ _ => Except.ok ([[("x", "1")]] : Rows)) "select x" =
      ({ text := renderRows [[("x", "1")]], isError := false }, ["select x"]) :=
  c9_success_text_is_rows_json (fun _ _ => Except.ok ([[("x", "1")]] : Rows)) "select x"
    [[("x", "1")]] (by decide) (by rfl)

/-- Claim C10: the analyze-query-results prompt applies the same
SELECT-prefix gate as the execute-query tool (identical Gateway call lists);
a query that is not SELECT-prefixed yields one user-role message and zero
Gateway calls, and a SELECT-prefixed query is dispatched to the Gateway. -/
theorem c10_analyze_prompt_gate :
    ∀ (gw : Gateway) (q goal : String),
      ((analyzeQueryResults gw q goal).snd = (executeQueryTool gw q).snd)
      ∧ (jsStartsWith (jsToLower (jsTrim q)) "select" = false →
          (analyzeQueryResults gw q goal).snd = []
          ∧ ∃ m : PromptMessage,
              (analyzeQueryResults gw q goal).fst = [m] ∧ m.role = "user")
      ∧ (jsStartsWith (jsToLower (jsTrim q)) "select" = true →
          (analyzeQueryResults gw q goal).snd = [q]) := by
  intro gw q goal
  refine ⟨?_, ?_, ?_⟩
  · unfold analyzeQueryResults executeQueryTool
    by_cases h : jsStartsWith (jsToLower (jsTrim q)) "select" = true
    · simp only [h]
      cases gw q [] <;> simp
    · simp only [Bool.not_eq_true] at h
      simp [h]
  · intro h
    unfold analyzeQueryResults
    simp [h]
  · intro h
    unfold analyzeQueryResults
    simp only [h]
    cases gw q [] <;> simp

/-- Witness for C10 at the concrete query "UPDATE t SET x = 1". -/
theorem c10_witness :
    (analyzeQueryResults (fun _ _ => Except.ok ([] : Rows)) "UPDATE t SET x = 1"
        "find trends").snd = []
    ∧ ∃ m : PromptMessage,
        (analyzeQueryResults (fun _ _ => Except.ok ([] : Rows)) "UPDATE t SET x = 1"
            "find trends").fst = [m] ∧ m.role = "user" :=
  (c10_analyze_prompt_gate (fun _ _ => Except.ok ([] : Rows)) "UPDATE t SET x = 1"
      "find trends").2.1 (by decide)

/-- Claim C1: the code splices an identifier that fails the sanitizer
pattern straight into SQL text on two paths the claim names — the db helper
getTableStats builds and dispatches its row-count query around the raw
table name, and the explore-table prompt builds its sample-data query the
same way — so an invalid identifier does reach SQL text construction. -/
theorem c1_unsanitized_name_reaches_sql :
    sanitizeId "bad;name" = false
    ∧ tableStatsCountQuery "bad;name"
        = "SELECT COUNT(*) as total_rows FROM \x22bad;name\x22"
    ∧ exploreTableSampleQuery "bad;name" = "SELECT * FROM \x22bad;name\x22 LIMIT 5"
    ∧ ∀ gw : Gateway,
        (getTableStats gw "bad;name").snd.head?
          = some (tableStatsCountQuery "bad;name", []) := by
  refine ⟨by decide, by decide, by decide, ?_⟩
  intro gw
  cases hgw : gw (tableStatsCountQuery "bad;name") [] with
  | error e => simp [getTableStats, hgw]
  | ok r =>
    cases hgw2 : gw tableStatsSizeQuery ["public.bad;name"] with
    | error e => simp [getTableStats, hgw, hgw2]
    | ok r2 => simp [getTableStats, hgw, hgw2]

/-- Counterexample to claim C3: the empty string supplied as the order-by
column is rejected by the Sanitizer, yet the get-sample-data tool does not
return an invalid-identifier error for it — the JS truthiness test treats
the empty order-by as absent, silently drops the ORDER BY clause, and the
call succeeds. -/
theorem c3_empty_orderby_not_rejected :
    sanitizeId "" = false
    ∧ getSampleDataCore (fun _ _ => Except.ok ([] : Rows)) "t" 10 (some "")
        = (Except.ok [], ["SELECT * FROM \x22t\x22 LIMIT 10"])
    ∧ (getSampleDataTool (fun _ _ => Except.ok ([] : Rows)) "t" (some 10)
        (some "")).fst.isError = false := by
  refine ⟨by decide, by rfl, by rfl⟩

/-- Claim C3 as amended: the Sanitizer accepts a string exactly when it is
non-empty and composed only of ASCII letters, digits and underscore; a
table or column name failing it makes get-sample-data, count-rows and
column-stats return an invalid-identifier error with zero Gateway calls,
and so does a non-empty order-by string failing it — but an empty order-by
string is treated as absent and does not error. -/
theorem c3_sanitizer_accept_iff_word :
    (∀ s : String, sanitizeId s = true ↔
        s.data ≠ [] ∧ ∀ c ∈ s.data,
          ('a' ≤ c ∧ c ≤ 'z') ∨ ('A' ≤ c ∧ c ≤ 'Z') ∨ ('0' ≤ c ∧ c ≤ '9') ∨ c = '_')
  ∧ (∀ (gw : Gateway) (t : String) (l : Option Nat) (ob : Option String),
      sanitizeId t = false →
        getSampleDataTool gw t l ob =
          ({ text := "Error fetching sample data: Invalid table name",
             isError := true }, []))
  ∧ (∀ (gw : Gateway) (t c : String) (l : Option Nat),
      sanitizeId t = true → c ≠ "" → sanitizeId c = false →
        getSampleDataTool gw t l (some c) =
          ({ text := "Error fetching sample data: Invalid order by column",
             isError := true }, []))
  ∧ (∀ (gw : Gateway) (t : String) (w : Option String),
      sanitizeId t = false →
        countRowsTool gw t w =
          ({ text := "Error counting rows: Invalid table name", isError := true }, []))
  ∧ (∀ (gw : Gateway) (t c : String),
      (sanitizeId t && sanitizeId c) = false →
        columnStatsTool gw t c =
          ({ text := "Error getting column statistics: Invalid table or column name",
             isError := true }, []))
  ∧ (∀ (gw : Gateway) (t : String) (l : Nat),
      getSampleDataCore gw t l (some "") = getSampleDataCore gw t l none) := by
  refine ⟨?_, ?_, ?_, ?_, ?_, ?_⟩
  · intro s
    simp only [sanitizeId, Bool.and_eq_true, Bool.not_eq_true', List.all_eq_true,
      isWordChar, Bool.or_eq_true, decide_eq_true_eq]
    constructor
    · rintro ⟨h1, h2⟩
      refine ⟨fun he => by simp [he] at h1, fun c hc => ?_⟩
      rcases h2 c hc with (⟨a, b⟩ | ⟨a, b⟩ | ⟨a, b⟩ | a) <;> tauto
    · rintro ⟨h1, h2⟩
      have h1b : s.data.isEmpty = false := by
        cases hd : s.data with
        | nil => exact absurd hd h1
        | cons a t => rfl
      refine ⟨h1b, fun c hc => ?_⟩
      rcases h2 c hc with (⟨a, b⟩ | ⟨a, b⟩ | ⟨a, b⟩ | a) <;> tauto
  · intro gw t l ob h
    unfold getSampleDataTool getSampleDataCore
    simp [h]
  · intro gw t c l ht hc hcs
    unfold getSampleDataTool getSampleDataCore
    simp [ht, hc, hcs]
  · intro gw t w h
    unfold countRowsTool
    simp [h]
  · intro gw t c h
    unfold columnStatsTool columnStatsCore
    simp [h]
  · intro gw t l
    unfold getSampleDataCore
    simp [sampleDataQuery]

/-- Witness for the amended C3 at the concrete table name with a space. -/
theorem c3_witness :
    getSampleDataTool (fun _ _ => Except.ok ([] : Rows)) "bad name" none none =
      ({ text := "Error fetching sample data: Invalid table name",
         isError := true }, []) :=
  c3_sanitizer_accept_iff_word.2.1 (fun _ _ => Except.ok ([] : Rows)) "bad name"
    none none (by decide)

/-- Claim C7: for a sanitized table name, a sanitized optional order-by and
a limit (default 10 when omitted), the get-sample-data handler builds
exactly the SELECT star query with the optional ORDER BY clause and the
LIMIT suffix and dispatches that single query; against the modelled engine
a limit of N on a table holding at least N rows yields exactly N rows, and
a limit of 0 yields zero rows without erroring. -/
theorem c7_sample_query_shape :
    (∀ (t c : String) (n : Nat),
        sampleDataQuery t none n
          = "SELECT * FROM \x22" ++ t ++ "\x22 LIMIT " ++ toString n
        ∧ (c ≠ "" → sampleDataQuery t (some c) n
            = "SELECT * FROM \x22" ++ t ++ "\x22 ORDER BY \x22" ++ c ++ "\x22 LIMIT "
                ++ toString n))
  ∧ (∀ (gw : Gateway) (t : String) (ob : Option String),
      getSampleDataTool gw t none ob = getSampleDataTool gw t (some 10) ob)
  ∧ (∀ (gw : Gateway) (t : String) (l : Nat) (ob : Option String),
      sanitizeId t = true →
      (∀ c, ob = some c → sanitizeId c = true) →
      (getSampleDataCore gw t l ob).snd = [sampleDataQuery t ob l])
  ∧ (∀ (rows : Rows) (t : String) (n : Nat),
      sanitizeId t = true → n ≤ rows.length →
      getSampleDataCore (sampleDb rows t none n) t n none
          = (Except.ok (rows.take n), [sampleDataQuery t none n])
        ∧ (rows.take n).length = n)
  ∧ (∀ (rows : Rows) (t : String),
      sanitizeId t = true →
      getSampleDataCore (sampleDb rows t none 0) t 0 none
        = (Except.ok [], [sampleDataQuery t none 0])) := by
  refine ⟨?_, ?_, ?_, ?_, ?_⟩
  · intro t c n
    constructor
    · simp only [sampleDataQuery, String.append_empty]
      rw [String.append_assoc ("SELECT * FROM \x22" ++ t) "\x22" " LIMIT "]
      rw [show ("\x22" : String) ++ " LIMIT " = "\x22 LIMIT " from rfl]
    · intro hc
      simp only [sampleDataQuery, if_neg hc]
      simp only [← String.append_assoc]
      rw [String.append_assoc ("SELECT * FROM \x22" ++ t) "\x22" " ORDER BY \x22"]
      rw [show ("\x22" : String) ++ " ORDER BY \x22" = "\x22 ORDER BY \x22" from rfl]
      rw [String.append_assoc ("SELECT * FROM \x22" ++ t ++ "\x22 ORDER BY \x22" ++ c)
            "\x22" " LIMIT "]
      rw [show ("\x22" : String) ++ " LIMIT " = "\x22 LIMIT " from rfl]
  · intro gw t ob
    rfl
  · intro gw t l ob ht hob
    cases ob with
    | none => simp [getSampleDataCore, ht]
    | some c =>
      have hc : sanitizeId c = true := hob c rfl
      have hcne : c ≠ "" := sanitizeId_ne_empty hc
      simp [getSampleDataCore, ht, hc, hcne]
  · intro rows t n ht hn
    constructor
    · simp [getSampleDataCore, ht, sampleDb]
    · simp [List.length_take, Nat.min_eq_left hn]
  · intro rows t ht
    simp [getSampleDataCore, ht, sampleDb]

/-- Witness for C7 at a concrete two-row table with limit 2. -/
theorem c7_witness :
    getSampleDataCore
        (sampleDb [[("id", "1")], [("id", "2")], [("id", "3")]] "orders" none 2)
        "orders" 2 none
      = (Except.ok [[("id", "1")], [("id", "2")]], [sampleDataQuery "orders" none 2])
    ∧ ([[("id", "1")], [("id", "2")], [("id", "3")]].take 2).length = 2 :=
  c7_sample_query_shape.2.2.2.1 [[("id", "1")], [("id", "2")], [("id", "3")]]
    "orders" 2 (by decide) (by decide)

/-- Counterexample to claim C8: in the URL-argument variant the databases
resource handler has no catch clause, so a driver failure propagates out of
the handler instead of being converted to an error envelope. -/
theorem c8_dist_handler_error_escapes :
    databasesHandler (fun _ _ => Except.error "connection terminated unexpectedly")
        "postgres://localhost/databases/mydb" "mydb"
      = Except.error "connection terminated unexpectedly"
    ∧ ∀ rc : ResourceContent,
        databasesHandler (fun _ _ => Except.error "connection terminated unexpectedly")
            "postgres://localhost/databases/mydb" "mydb"
          ≠ Except.ok rc := by
  constructor
  · rfl
  · intro rc h
    simp [databasesHandler] at h

/-- Claim C8 as amended: in the environment-variable variant every tool and
resource handler error — sanitizer rejection, classifier rejection or
driver failure, across the four tools and the tables-list, table-schema,
table-details and table-stats resources — is caught at the handler boundary
and converted to the error envelope; in the URL-argument variant the
databases and schema resource handlers have no catch clause and a driver
failure propagates out of the handler. -/
theorem c8_error_envelopes :
    (∀ (gw : Gateway) (uri e : String),
        gw getAllTablesQuery [] = Except.error e →
        tablesListHandler gw uri =
          { uri := uri, text := "Error fetching tables: " ++ e, mimeType := "text/plain" })
  ∧ (∀ (gw : Gateway) (q e : String),
      jsStartsWith (jsToLower (jsTrim q)) "select" = true →
      gw q [] = Except.error e →
      executeQueryTool gw q =
        ({ text := "Error executing query: " ++ e, isError := true }, [q]))
  ∧ (∀ (gw : Gateway) (t : String) (l : Option Nat) (ob : Option String) (m : String)
        (cs : List String),
      getSampleDataCore gw t (l.getD 10) ob = (Except.error m, cs) →
      getSampleDataTool gw t l ob =
        ({ text := "Error fetching sample data: " ++ m, isError := true }, cs))
  ∧ (∀ (gw : Gateway) (t : String) (w : Option String) (e : String),
      sanitizeId t = true →
      gw (countRowsQueryOf t w) [] = Except.error e →
      countRowsTool gw t w =
        ({ text := "Error counting rows: " ++ e, isError := true },
         [countRowsQueryOf t w]))
  ∧ (∀ (gw : Gateway) (t c m : String) (cs : List (String × List String)),
      columnStatsCore gw t c = (Except.error m, cs) →
      columnStatsTool gw t c =
        ({ text := "Error getting column statistics: " ++ m, isError := true }, cs))
  ∧ (∀ (gw : Gateway) (u d e : String),
      gw databasesDetailQuery [d] = Except.error e →
      databasesHandler gw u d = Except.error e)
  ∧ (∀ (gw : Gateway) (u tb e : String),
      gw schemaColumnsQuery [tb] = Except.error e →
      schemaHandler gw u tb = Except.error e)
  ∧ (∀ (gw : Gateway) (u t e : String),
      getTableSchemaDb gw t = Except.error e →
      tableSchemaHandler gw u t =
        { uri := u, text := "Error fetching schema for " ++ t ++ ": " ++ e,
          mimeType := "text/plain" })
  ∧ (∀ (gw : Gateway) (u t e : String),
      getTableDetailsDb gw t = Except.error e →
      tableDetailsHandler gw u t =
        { uri := u, text := "Error fetching details for " ++ t ++ ": " ++ e,
          mimeType := "text/plain" })
  ∧ (∀ (gw : Gateway) (u t e : String),
      (getTableStats gw t).fst = Except.error e →
      tableStatsHandler gw u t =
        { uri := u, text := "Error fetching stats for " ++ t ++ ": " ++ e,
          mimeType := "text/plain" }) := by
  refine ⟨?_, ?_, ?_, ?_, ?_, ?_, ?_, ?_, ?_, ?_⟩
  · intro gw uri e h
    unfold tablesListHandler getAllTables
    simp [h]
  · intro gw q e hs h
    unfold executeQueryTool
    simp [hs, h]
  · intro gw t l ob m cs h
    unfold getSampleDataTool
    rw [h]
  · intro gw t w e ht h
    unfold countRowsTool
    simp [ht, h]
  · intro gw t c m cs h
    unfold columnStatsTool
    rw [h]
  · intro gw u d e h
    unfold databasesHandler
    rw [h]
  · intro gw u tb e h
    unfold schemaHandler
    rw [h]
  · intro gw u t e h
    unfold tableSchemaHandler
    rw [h]
  · intro gw u t e h
    unfold tableDetailsHandler
    rw [h]
  · intro gw u t e h
    unfold tableStatsHandler
    rw [h]

/-- Witness for the amended C8 at a concrete failing Gateway. -/
theorem c8_witness :
    tablesListHandler (fun _ _ => Except.error "connection refused") "db://tables" =
      { uri := "db://tables", text := "Error fetching tables: connection refused",
        mimeType := "text/plain" } :=
  c8_error_envelopes.1 (fun _ _ => Except.error "connection refused") "db://tables"
    "connection refused" (by rfl)

/- ===================== column-stats evaluation lemmas ===================== -/

theorem mockDb_schema_eval (dt t c : String) :
    mockDb dt t c schemaQueryText [t, c] = Except.ok [[("data_type", dt)]] := by
  simp [mockDb]

theorem mockDb_stats_eval (dt : String) (b : StatsBranch) :
    mockDb dt "orders" "amount" (statsQueryText b "orders" "amount") [] =
      Except.ok [mockStatsRow b] := by
  cases b
  case numeric =>
    simp only [mockDb]
    rw [if_neg (by decide)]
    simp
  case temporal =>
    simp only [mockDb]
    rw [if_neg (by decide), if_neg (by decide)]
    simp
  case fallback =>
    simp only [mockDb]
    rw [if_neg (by decide), if_neg (by decide), if_neg (by decide)]
    simp

theorem mockDb_null_eval (dt : String) :
    mockDb dt "orders" "amount" (nullQueryText "orders" "amount") [] =
      Except.ok [[("null_count", "1")]] := by
  simp only [mockDb]
  rw [if_neg (by decide), if_neg (by decide), if_neg (by decide), if_neg (by decide)]
  simp

theorem columnStatsCore_mockDb (dt : String) :
    columnStatsCore (mockDb dt "orders" "amount") "orders" "amount" =
      (Except.ok (setKey (setKey (mockStatsRow (selectBranch dt)) "null_count" "1")
          "data_type" dt),
       [(schemaQueryText, ["orders", "amount"]),
        (statsQueryText (selectBranch dt) "orders" "amount", []),
        (nullQueryText "orders" "amount", [])]) := by
  unfold columnStatsCore
  rw [if_neg (by decide)]
  rw [mockDb_schema_eval]
  simp only [List.head?, List.lookup, Option.getD]
  rw [mockDb_stats_eval, mockDb_null_eval]
  simp

/-- Claim C6: every successful column-stats invocation dispatches the
always-run null-count query regardless of branch, and the returned record
carries the null count of that query under the null_count key and the
declared type from the schema probe under the data_type key. -/
theorem c6_null_count_merge :
    ∀ (gw : Gateway) (t c : String) (r : Row) (calls : List (String × List String)),
      columnStatsCore gw t c = (Except.ok r, calls) →
      ((nullQueryText t c, ([] : List String)) ∈ calls
        ∧ (∃ nrows : Rows, gw (nullQueryText t c) [] = Except.ok nrows
            ∧ ∃ nrow, nrows.head? = some nrow
              ∧ r.lookup "null_count"
                  = some ((nrow.lookup "null_count").getD "undefined"))
        ∧ (∃ srows : Rows, gw schemaQueryText [t, c] = Except.ok srows
            ∧ ∃ row0, srows.head? = some row0
              ∧ r.lookup "data_type"
                  = some ((row0.lookup "data_type").getD ""))) := by
  intro gw t c r calls h
  unfold columnStatsCore at h
  by_cases h0 : (!(sanitizeId t && sanitizeId c)) = true
  · rw [if_pos h0] at h
    simp at h
  · rw [if_neg h0] at h
    cases h1 : gw schemaQueryText [t, c] with
    | error e => rw [h1] at h; simp at h
    | ok schemaResult =>
      rw [h1] at h
      dsimp only at h
      cases h2 : schemaResult.head? with
      | none => rw [h2] at h; simp at h
      | some row0 =>
        rw [h2] at h
        dsimp only at h
        cases h3 : gw (statsQueryText (selectBranch ((row0.lookup "data_type").getD ""))
            t c) [] with
        | error e => rw [h3] at h; simp at h
        | ok statsResult =>
          rw [h3] at h
          dsimp only at h
          cases h4 : gw (nullQueryText t c) [] with
          | error e => rw [h4] at h; simp at h
          | ok nullResult =>
            rw [h4] at h
            dsimp only at h
            cases h5 : nullResult.head? with
            | none => rw [h5] at h; simp at h
            | some nrow =>
              rw [h5] at h
              dsimp only at h
              have hr : r = setKey (setKey (statsResult.head?.getD [])
                  "null_count" ((nrow.lookup "null_count").getD "undefined"))
                  "data_type" ((row0.lookup "data_type").getD "") := by
                have hf := congrArg Prod.fst h
                simp at hf
                exact hf.symm
              have hcalls : calls =
                  [(schemaQueryText, [t, c]),
                   (statsQueryText (selectBranch ((row0.lookup "data_type").getD ""))
                      t c, []),
                   (nullQueryText t c, [])] := by
                have hs := congrArg Prod.snd h
                simp at hs
                exact hs.symm
              subst hr
              subst hcalls
              refine ⟨by simp, ?_, ?_⟩
              · refine ⟨nullResult, rfl, nrow, h5, ?_⟩
                rw [setKey_lookup_of_ne _ _ (by decide)]
                exact setKey_lookup_self _ _ _
              · refine ⟨schemaResult, rfl, row0, h2, ?_⟩
                exact setKey_lookup_self _ _ _

/-- Witness for C6 against the model engine with declared type integer. -/
theorem c6_witness :
    ((nullQueryText "orders" "amount", ([] : List String)) ∈
        [(schemaQueryText, ["orders", "amount"]),
         (statsQueryText StatsBranch.numeric "orders" "amount", ([] : List String)),
         (nullQueryText "orders" "amount", ([] : List String))])
    ∧ (∃ nrows : Rows,
        mockDb "integer" "orders" "amount" (nullQueryText "orders" "amount") []
          = Except.ok nrows
        ∧ ∃ nrow, nrows.head? = some nrow
          ∧ (setKey (setKey (mockStatsRow StatsBranch.numeric) "null_count" "1")
              "data_type" "integer").lookup "null_count"
            = some ((nrow.lookup "null_count").getD "undefined"))
    ∧ (∃ srows : Rows,
        mockDb "integer" "orders" "amount" schemaQueryText ["orders", "amount"]
          = Except.ok srows
        ∧ ∃ row0, srows.head? = some row0
          ∧ (setKey (setKey (mockStatsRow StatsBranch.numeric) "null_count" "1")
              "data_type" "integer").lookup "data_type"
            = some ((row0.lookup "data_type").getD "")) :=
  c6_null_count_merge (mockDb "integer" "orders" "amount") "orders" "amount"
    (setKey (setKey (mockStatsRow StatsBranch.numeric) "null_count" "1")
      "data_type" "integer")
    [(schemaQueryText, ["orders", "amount"]),
     (statsQueryText StatsBranch.numeric "orders" "amount", []),
     (nullQueryText "orders" "amount", [])]
    (by rw [columnStatsCore_mockDb,
            show selectBranch "integer" = StatsBranch.numeric from by decide])

/-- Counterexample to claim C5: branch selection is case sensitive, not
case insensitive — the declared type INT4 contains int case-insensitively,
yet the code selects the fallback branch, not the numeric branch. -/
theorem c5_case_insensitive_fails :
    selectBranch "INT4" = StatsBranch.fallback
    ∧ containsSub (jsToLower "INT4") "int" = true
    ∧ selectBranch "INT4" ≠ StatsBranch.numeric := by
  refine ⟨by decide, by decide, by decide⟩

/-- Claim C5 as amended: the statistics branch is a pure function of case
sensitive substring containment on the declared type — a type containing
int, float, decimal or numeric takes the numeric branch, otherwise one
containing date or time takes the temporal branch, otherwise the fallback
branch; the branches are mutually exclusive, a numeric-typed column yields
mean and median keys and no distinct_count key, and a fallback-typed column
yields a distinct_count key and no mean or median key. -/
theorem c5_branch_selection :
    (∀ dt : String, selectBranch dt = StatsBranch.numeric ↔ numericCond dt = true)
  ∧ (∀ dt : String, selectBranch dt = StatsBranch.temporal ↔
      (numericCond dt = false ∧ temporalCond dt = true))
  ∧ (∀ dt : String, selectBranch dt = StatsBranch.fallback ↔
      (numericCond dt = false ∧ temporalCond dt = false))
  ∧ (∀ dt : String, numericCond dt = true →
      ∃ (r : Row) (calls : List (String × List String)),
        columnStatsCore (mockDb dt "orders" "amount") "orders" "amount"
            = (Except.ok r, calls)
          ∧ (r.lookup "mean").isSome = true
          ∧ (r.lookup "median").isSome = true
          ∧ r.lookup "distinct_count" = none
          ∧ r.lookup "data_type" = some dt)
  ∧ (∀ dt : String, numericCond dt = false → temporalCond dt = false →
      ∃ (r : Row) (calls : List (String × List String)),
        columnStatsCore (mockDb dt "orders" "amount") "orders" "amount"
            = (Except.ok r, calls)
          ∧ (r.lookup "distinct_count").isSome = true
          ∧ r.lookup "mean" = none ∧ r.lookup "median" = none) := by
  refine ⟨selectBranch_numeric_iff, selectBranch_temporal_iff,
    selectBranch_fallback_iff, ?_, ?_⟩
  · intro dt hdt
    have hb : selectBranch dt = .numeric := (selectBranch_numeric_iff dt).mpr hdt
    refine ⟨setKey (setKey (mockStatsRow .numeric) "null_count" "1") "data_type" dt,
            [(schemaQueryText, ["orders", "amount"]),
             (statsQueryText .numeric "orders" "amount", []),
             (nullQueryText "orders" "amount", [])], ?_, ?_, ?_, ?_, ?_⟩
    · rw [columnStatsCore_mockDb dt, hb]
    · rfl
    · rfl
    · rfl
    · rfl
  · intro dt hn ht
    have hb : selectBranch dt = .fallback := (selectBranch_fallback_iff dt).mpr ⟨hn, ht⟩
    refine ⟨setKey (setKey (mockStatsRow .fallback) "null_count" "1") "data_type" dt,
            [(schemaQueryText, ["orders", "amount"]),
             (statsQueryText .fallback "orders" "amount", []),
             (nullQueryText "orders" "amount", [])], ?_, ?_, ?_, ?_⟩
    · rw [columnStatsCore_mockDb dt, hb]
    · rfl
    · rfl
    · rfl

/-- Witness for the amended C5 at the declared type numeric. -/
theorem c5_witness :
    ∃ (r : Row) (calls : List (String × List String)),
      columnStatsCore (mockDb "numeric" "orders" "amount") "orders" "amount"
          = (Except.ok r, calls)
        ∧ (r.lookup "mean").isSome = true
        ∧ (r.lookup "median").isSome = true
        ∧ r.lookup "distinct_count" = none
        ∧ r.lookup "data_type" = some "numeric" :=
  c5_branch_selection.2.2.2.1 "numeric" (by decide)
